import Mathlib

/-!
Shallow embedding of the Alibaba-Hackathon support-agent service.

The Python sources embedded here are:
* `app/main.py` — the `/submit-screenshot` pipeline (`submit_screenshot`)
  and the `/kb/upload-files` ingestion endpoint (`upload_kb_files`);
* `app/qwen_service.py` — `qwen_vl_extract` (brace-scraping JSON parse);
* `app/gemini_service.py` — `gemini_vl_extract` and `gemini_chat`;
* `app/opensearch_service.py` — `upsert_vectors` payload construction;
* `app/models.py` / `app/models_db.py` — the pydantic and SQLAlchemy models.

External calls (HTTP requests, the embedding model, the database commits)
are modelled as explicit oracle arguments of type `Except Unit _`: `.ok v`
is a call that returned `v`, `.error ()` a call that raised.  Python
strings are modelled as `String`, Python character-level operations are
defined below over `List Char` (Python slices and scans strings by code
point), floats that are only stored and compared for truthiness are
modelled as `ℚ`, and `dict`/JSON values reaching the pipeline are
modelled at the granularity the pipeline reads them (flat field sets).
-/

set_option maxRecDepth 4000

namespace App

/-- Python `x or default` for an optional string: `None` and `""` are falsy. -/
def pyOr : Option String → String → String
  | some s, d => if s = "" then d else s
  | none, d => d

/-- Python truthiness of an optional string (`if val:`). -/
def pyTruthyStr : Option String → Bool
  | some s => s ≠ ""
  | none => false

/-- Python slice `s[:n]` — code-point truncation. -/
def pyTake (s : String) (n : Nat) : String := ⟨s.toList.take n⟩

/-- Python `s.strip()` — drop leading and trailing whitespace. -/
def pyStrip (s : String) : String :=
  ⟨((s.toList.dropWhile Char.isWhitespace).reverse.dropWhile Char.isWhitespace).reverse⟩

/-- Python `s.lower()`. -/
def pyLower (s : String) : String := ⟨s.toList.map Char.toLower⟩

/-- `pat` occurs as a contiguous sublist of the second argument. -/
def hasSubstr (pat : List Char) : List Char → Bool
  | [] => pat.isEmpty
  | c :: cs => pat.isPrefixOf (c :: cs) || hasSubstr pat cs

/-- Python `pat in s` for strings: substring containment. -/
def strContainsSub (s pat : String) : Bool := hasSubstr pat.toList s.toList

/-- Python `s.find(c)` restricted to the case where `c` occurs: index of the
first occurrence of the character `c`. -/
def pyFindChar (l : List Char) (c : Char) : Nat :=
  (l.takeWhile (fun x => decide (x ≠ c))).length

/-- `ExtractedFields` from `app/models.py` (lines 23-30): the flat field set
the pipeline reads out of the extraction result dict. -/
structure ExtractedFields where
  order_id : Option String := none
  tracking_no : Option String := none
  product_name : Option String := none
  price : Option String := none
  issue_type : Option String := none
  confidence : Option ℚ := none
  low_confidence : Option Bool := none
deriving DecidableEq

/-- The empty field set: `ExtractedFields()` / the `{}` dict. -/
def emptyFields : ExtractedFields := {}

/-- The four retrieval keys of `app/main.py` line 158, in source order. -/
def fieldPairs (e : ExtractedFields) : List (String × Option String) :=
  [("order_id", e.order_id), ("tracking_no", e.tracking_no),
   ("product_name", e.product_name), ("issue_type", e.issue_type)]

/-- Retrieval-query construction, `app/main.py` lines 156-162:
`parts = [body.initial_message or ""]`, append `"<key>: <val>"` for each
truthy extracted value of the four keys in order, join the non-empty parts
with newline, and fall back to `"customer support"` when the join is empty. -/
def buildQuery (initial_message : Option String) (e : ExtractedFields) : String :=
  let parts :=
    (fieldPairs e).foldl
      (fun acc kv =>
        if pyTruthyStr kv.2 then acc ++ [kv.1 ++ ": " ++ kv.2.getD ""] else acc)
      [pyOr initial_message ""]
  let joined := String.intercalate "\n" (parts.filter (fun p => decide (p ≠ "")))
  if joined = "" then "customer support" else joined

/-- Modelled from the spec: the query-building algorithm as §4.4 words it —
start with `initial_message` (or empty string); for each of the four keys in
fixed order, if the value is present (non-null, non-empty) append the line
`"<key>: <value>"`; join all non-empty parts with newline; if the result is
empty fall back to the literal `"customer support"`. -/
def buildQuerySpec (initial_message : Option String) (e : ExtractedFields) : String :=
  let start := initial_message.getD ""
  let lines := (fieldPairs e).filterMap fun kv =>
    match kv.2 with
    | some v => if v = "" then none else some (kv.1 ++ ": " ++ v)
    | none => none
  let joined := String.intercalate "\n" ((start :: lines).filter (fun p => decide (p ≠ "")))
  if joined = "" then "customer support" else joined

/-- `SubmitScreenshotRequest` from `app/models.py` lines 16-20 (`top_k`
defaults to 4 at validation time; `image_url` is a required string). -/
structure SubmitScreenshotRequest where
  user_id : String
  image_url : String
  initial_message : Option String := none
  top_k : Nat := 4
deriving DecidableEq

/-- Metadata dict of one vector-store match as `submit_screenshot` reads it
(`meta.get("title") / ("url") / ("text")`, `app/main.py` lines 172-177). -/
structure MatchMeta where
  title : Option String := none
  url : Option String := none
  text : Option String := none
deriving DecidableEq

/-- One `Match` of `query_vector`'s result (`app/opensearch_service.py`
lines 113-131): `id`, `score` and a metadata dict, where `main.py` defends
against a missing score (`m.score or 0.0`) and missing metadata
(`m.metadata or {}`). -/
structure SearchMatch where
  id : String
  score : Option ℚ := none
  metadata : Option MatchMeta := none
deriving DecidableEq

/-- `Result` of `query_vector`: an object whose `matches` attribute `main.py`
reads as `search.matches or []` (named `matchList` here because `matches` is
a reserved word in Lean). -/
structure SearchResult where
  matchList : Option (List SearchMatch)
deriving DecidableEq

/-- `KBDoc` from `app/models.py` lines 33-38. -/
structure KBDoc where
  doc_id : String
  title : Option String := none
  url : Option String := none
  snippet : String
  score : ℚ
deriving DecidableEq

/-- The loop body of `app/main.py` lines 171-180: one retrieval match
converted to the response `KBDoc`, with `snippet=(meta.get("text") or "")[:500]`
and `score=float(m.score or 0.0)`. -/
def kbDocOfMatch (m : SearchMatch) : KBDoc :=
  let meta := m.metadata.getD {}
  { doc_id := m.id
    title := meta.title
    url := meta.url
    snippet := pyTake (pyOr meta.text "") 500
    score := m.score.getD 0 }

/-- `SubmitScreenshotResponse` from `app/models.py` lines 41-44. -/
structure SubmitScreenshotResponse where
  extracted : ExtractedFields
  kb : List KBDoc
  answer : String
deriving DecidableEq

/-- `TicketDB` row from `app/models_db.py` lines 15-22, as filled in by
`submit_screenshot` (`app/main.py` lines 204-211). -/
structure TicketDB where
  id : String
  user_id : String
  image_url : String
  extracted : ExtractedFields
  answer : String
  kb_doc_ids : List String
deriving DecidableEq

/-- `ChatMessageDB` row from `app/models_db.py` lines 25-33, as filled in by
`submit_screenshot` (`app/main.py` lines 216-222). -/
structure ChatMessageDB where
  id : String
  user_id : String
  role : String
  content_type : String
  content : String
deriving DecidableEq

/-- One entry of the `messages` list built at `app/main.py` lines 187-193. -/
structure ChatTurn where
  role : String
  content : String
deriving DecidableEq

/-- The system instruction of `app/main.py` lines 188-191. -/
def systemInstruction : String :=
  "You are a friendly support assistant. Respond naturally to the user, " ++
  "even if no knowledge base info is available."

/-- `evidence_text` of `app/main.py` line 186: numbered doc blocks joined by
blank lines. -/
def evidenceText (kb_docs : List KBDoc) : String :=
  String.intercalate "\n\n"
    (kb_docs.enum.map fun p =>
      "[Doc " ++ toString (p.1 + 1) ++ "] " ++ pyOr p.2.title "" ++ "\n" ++ p.2.snippet)

/-- The `messages` list of `app/main.py` lines 187-193. -/
def buildMessages (initial_message : Option String) (kb_docs : List KBDoc) : List ChatTurn :=
  [⟨"system", systemInstruction⟩,
   ⟨"user", pyOr initial_message "" ++ "\nEVIDENCE:\n" ++ evidenceText kb_docs⟩]

/-- The chat fallback of `app/main.py` line 201:
`f"{body.initial_message or 'Hello!'} Hello! How are you today?"`. -/
def chatFallback (initial_message : Option String) : String :=
  pyOr initial_message "Hello!" ++ " Hello! How are you today?"

/-- The degraded response of the catch-all handler, `app/main.py` lines
235-239: all-null extracted fields, empty kb, fixed greeting. -/
def degradedResp : SubmitScreenshotResponse :=
  { extracted := emptyFields, kb := [], answer := "Hello! How can I help you today?" }

/-- Everything observable about one run of `submit_screenshot`: the HTTP
response, the durably committed ticket row and chat-history row (`none` when
the corresponding commit did not happen or raised), whether control reached
the answer-generation stage, and whether the final `return` of the `try`
body (rather than the catch-all handler) produced the response. -/
structure RunOutcome where
  resp : SubmitScreenshotResponse
  ticket : Option TicketDB
  chatMsg : Option ChatMessageDB
  chatCalled : Bool
  normal : Bool
deriving DecidableEq

/-- The outcome of the catch-all handler of `app/main.py` lines 233-239
when it is reached before the answer-generation stage. -/
def degradedOutcome : RunOutcome := ⟨degradedResp, none, none, false, false⟩

/-- The extraction stage, `app/main.py` lines 144-154: the inner
`try/except` replaces a raised extraction call by the empty dict. -/
def extractOf (r : Except Unit ExtractedFields) : ExtractedFields :=
  match r with
  | .ok d => d
  | .error _ => emptyFields

/-- The retrieval stage, `app/main.py` lines 167-183: on a raised
`query_vector` call both `kb_docs` and `kb_doc_ids` are reset to `[]`;
otherwise the loop maps each match of `search.matches or []` to its
`KBDoc` and its id. -/
def retrievalOf (r : Except Unit SearchResult) : List KBDoc × List String :=
  match r with
  | .error _ => ([], [])
  | .ok search =>
    let ms := search.matchList.getD []
    (ms.map kbDocOfMatch, ms.map SearchMatch.id)

/-- The answer stage, `app/main.py` lines 195-201: a raised `gemini_chat`
call, an empty answer, or one containing `"something went wrong"`
(case-insensitively) is replaced by the request-dependent fallback. -/
def answerOf (initial_message : Option String) (r : Except Unit String) : String :=
  match r with
  | .ok a =>
    if a = "" || strContainsSub (pyLower a) "something went wrong" then
      chatFallback initial_message
    else a
  | .error _ => chatFallback initial_message

/-- The tail of `submit_screenshot`, `app/main.py` lines 195-231: answer
stage, ticket persistence (`session.commit()` at line 213), chat-history
persistence (`session.commit()` at line 224), then the normal response.  A raised commit reaches
the catch-all handler: the already-committed writes stay durable, but the
response degrades. -/
def respondAndPersist (body : SubmitScreenshotRequest) (extracted : ExtractedFields)
    (pair : List KBDoc × List String) (chatResult : Except Unit String)
    (ticketCommit msgCommit : Except Unit Unit) (ticketId msgId : String) : RunOutcome :=
  let answer_text := answerOf body.initial_message chatResult
  let ticket : TicketDB :=
    ⟨ticketId, body.user_id, body.image_url, extracted, answer_text, pair.2⟩
  match ticketCommit with
  | .error _ => ⟨degradedResp, none, none, true, false⟩
  | .ok _ =>
    match msgCommit with
    | .error _ => ⟨degradedResp, some ticket, none, true, false⟩
    | .ok _ =>
      ⟨⟨extracted, pair.1, answer_text⟩, some ticket,
       some ⟨msgId, body.user_id, "bot", "text", answer_text⟩, true, true⟩

/-- `submit_screenshot`, `app/main.py` lines 136-239.

Oracles: `body?` is the parsed, schema-validated request body (`.error ()`
when `await request.json()` or `SubmitScreenshotRequest(**body_data)`
raises); `extractR` the result of the `gemini_vl_extract` /
`gemini_text_extract` call of lines 146-151; `embedR` the `embed_texts`
call, applied to the singleton query list of line 165 (a raised call, or a
result without a first element for `[0]`, escapes to the catch-all
handler); `searchR` the `query_vector(vec, top_k)` call of line 170;
`chatR` the `gemini_chat(messages)` call of line 196; `ticketCommit` /
`msgCommit` the two `session.commit()` calls; `ticketId` / `msgId` the
generated `uuid4().hex` values. -/
def submitScreenshot (body? : Except Unit SubmitScreenshotRequest)
    (extractR : Except Unit ExtractedFields)
    (embedR : List String → Except Unit (List (List ℚ)))
    (searchR : List ℚ → Nat → Except Unit SearchResult)
    (chatR : List ChatTurn → Except Unit String)
    (ticketCommit msgCommit : Except Unit Unit)
    (ticketId msgId : String) : RunOutcome :=
  match body? with
  | .error _ => degradedOutcome
  | .ok body =>
    let extracted := extractOf extractR
    let query_text := buildQuery body.initial_message extracted
    match embedR [query_text] with
    | .error _ => degradedOutcome
    | .ok [] => degradedOutcome
    | .ok (vec :: _) =>
      let pair := retrievalOf (searchR vec body.top_k)
      let messages := buildMessages body.initial_message pair.1
      respondAndPersist body extracted pair (chatR messages)
        ticketCommit msgCommit ticketId msgId

/-- What the HTTP boundary hands the caller: either a normal JSON response
or an HTTP error status with a detail payload (FastAPI's `HTTPException` /
validation error shape). -/
inductive EndpointResult where
  | normal (resp : SubmitScreenshotResponse)
  | httpError (status : Nat) (detail : String)
deriving DecidableEq

/-- Whether an endpoint result is a client error (4xx status). -/
def EndpointResult.isClientError : EndpointResult → Bool
  | .httpError s _ => 400 ≤ s && s < 500
  | .normal _ => false

/-- The `/submit-screenshot` endpoint as seen from the wire: the whole
handler body is wrapped in `try/except Exception` (`app/main.py` lines
138 and 233-239), so every run — including one whose body failed schema
validation — produces a normal response. -/
def submitScreenshotEndpoint (body? : Except Unit SubmitScreenshotRequest)
    (extractR : Except Unit ExtractedFields)
    (embedR : List String → Except Unit (List (List ℚ)))
    (searchR : List ℚ → Nat → Except Unit SearchResult)
    (chatR : List ChatTurn → Except Unit String)
    (ticketCommit msgCommit : Except Unit Unit)
    (ticketId msgId : String) : EndpointResult :=
  .normal (submitScreenshot body? extractR embedR searchR chatR
    ticketCommit msgCommit ticketId msgId).resp

/-- One element of `candidate["content"]["parts"]` in a Gemini response. -/
structure GeminiPart where
  text : Option String := none
deriving DecidableEq

/-- `candidate["content"]`; `parts` is `none` when the key is absent. -/
structure GeminiContent where
  parts : Option (List GeminiPart) := none
deriving DecidableEq

/-- One element of `resp["candidates"]`; `content` is `none` when absent. -/
structure GeminiCandidate where
  content : Option GeminiContent := none
deriving DecidableEq

/-- The parsed JSON body of a Gemini `generateContent` response, at the
granularity `gemini_chat` reads it; `candidates` is `none` when absent. -/
structure GeminiResp where
  candidates : Option (List GeminiCandidate) := none
deriving DecidableEq

/-- The `contents` payload built by `gemini_chat` (`app/gemini_service.py`
lines 139-158): each dict message keeps its role except that `"system"` is
rewritten to `"user"`, paired with its content text. -/
def geminiContents (msgs : List ChatTurn) : List (String × String) :=
  msgs.map fun m => (if m.role = "system" then "user" else m.role, m.content)

/-- `gemini_chat`, `app/gemini_service.py` lines 133-193.  `httpR` is the
HTTP call on the built payload: `.error ()` models a raised
`RequestException` (or a body that was not JSON), `.ok resp` a parsed
response body.  The function never raises: a transport failure returns the
sentinel `"Failed to connect to Gemini service."`, a response without a
non-empty `candidates` list carrying `content.parts` returns
`"No content returned from Gemini."`, and otherwise the part texts are
joined with single spaces. -/
def gemini_chat (msgs : List ChatTurn)
    (httpR : List (String × String) → Except Unit GeminiResp) : String :=
  let contents := geminiContents msgs
  match httpR contents with
  | .error _ => "Failed to connect to Gemini service."
  | .ok resp =>
    match resp.candidates with
    | some (cand :: _) =>
      (match cand.content with
       | some c =>
         (match c.parts with
          | some parts =>
            String.intercalate " " (parts.map fun p => p.text.getD "")
          | none => "No content returned from Gemini.")
       | none => "No content returned from Gemini.")
    | _ => "No content returned from Gemini."

/-- A JSON value of the flat fragment the extraction pipeline reads:
strings, booleans and `null`.  (This models the result of `json.loads` on
the model's field dict; numbers and nesting are outside the fragment the
claims touch and parse to `none` at the top level.) -/
inductive JVal where
  | str (s : String)
  | bool (b : Bool)
  | null
deriving DecidableEq

/-- Drop leading JSON whitespace. -/
def skipWs : List Char → List Char
  | c :: cs =>
    if c = ' ' || c = '\n' || c = '\t' || c = '\r' then skipWs cs else c :: cs
  | [] => []

/-- Parse a JSON string literal (escape-free fragment): `"…"`. -/
def parseJString (cs : List Char) : Option (String × List Char) :=
  match cs with
  | c :: rest =>
    if c = '"' then
      let content := rest.takeWhile (fun x => decide (x ≠ '"'))
      match rest.drop content.length with
      | q :: rest2 => if q = '"' then some (⟨content⟩, rest2) else none
      | [] => none
    else none
  | [] => none

/-- Parse a JSON value of the flat fragment: string, `true`, `false`, `null`. -/
def parseJValue (cs : List Char) : Option (JVal × List Char) :=
  match cs with
  | 'n' :: 'u' :: 'l' :: 'l' :: rest => some (.null, rest)
  | 't' :: 'r' :: 'u' :: 'e' :: rest => some (.bool true, rest)
  | 'f' :: 'a' :: 'l' :: 's' :: 'e' :: rest => some (.bool false, rest)
  | c :: rest =>
    if c = '"' then (parseJString (c :: rest)).map fun p => (.str p.1, p.2)
    else none
  | [] => none

/-- Parse the members of a JSON object after the opening brace, fuelled by
the remaining input length. -/
def parseMembers : Nat → List Char → List (String × JVal) →
    Option (List (String × JVal) × List Char)
  | 0, _, _ => none
  | fuel + 1, cs, acc =>
    match parseJString (skipWs cs) with
    | none => none
    | some (k, r1) =>
      match skipWs r1 with
      | ':' :: r2 =>
        match parseJValue (skipWs r2) with
        | none => none
        | some (v, r3) =>
          match skipWs r3 with
          | ',' :: r4 => parseMembers fuel r4 (acc ++ [(k, v)])
          | c :: r4 => if c = '}' then some (acc ++ [(k, v)], r4) else none
          | [] => none
      | _ => none

/-- `json.loads` on the flat object fragment: the whole input, up to
surrounding whitespace, must be one `{…}` object of string/boolean/null
members; anything else (leading junk, trailing junk, other shapes) fails. -/
def parseJsonObj (s : String) : Option (List (String × JVal)) :=
  match skipWs s.toList with
  | c :: rest =>
    if c = '{' then
      match skipWs rest with
      | d :: r2 =>
        if d = '}' then
          if skipWs r2 = [] then some [] else none
        else
          match parseMembers (rest.length + 1) rest [] with
          | some (ms, rem) => if skipWs rem = [] then some ms else none
          | none => none
      | [] => none
    else none
  | [] => none

/-- String value of a key in a parsed object (`d.get(k)` when the value is a
string; `null`, booleans and absence give `None`). -/
def jStr (ms : List (String × JVal)) (k : String) : Option String :=
  match ms.lookup k with
  | some (.str s) => some s
  | _ => none

/-- Boolean value of a key in a parsed object. -/
def jBool (ms : List (String × JVal)) (k : String) : Option Bool :=
  match ms.lookup k with
  | some (.bool b) => some b
  | _ => none

/-- The parsed dict read as the pipeline's flat field set
(`extracted.get(key)` in `app/main.py`). -/
def fieldsOfObj (ms : List (String × JVal)) : ExtractedFields :=
  { order_id := jStr ms "order_id"
    tracking_no := jStr ms "tracking_no"
    product_name := jStr ms "product_name"
    price := jStr ms "price"
    issue_type := jStr ms "issue_type"
    confidence := none
    low_confidence := jBool ms "low_confidence" }

/-- `json.loads` composed with the field-set view. -/
def parseFieldsJson (s : String) : Option ExtractedFields :=
  (parseJsonObj s).map fieldsOfObj

/-- The brace scrape of `app/qwen_service.py` lines 43-44: when the content
holds both a `{` and a `}`, cut from the first `{` to the last `}`
(`content[content.find("{") : content.rfind("}") + 1]`); otherwise leave the
content unchanged. -/
def scrapeBraces (content : String) : String :=
  if content.toList.contains '{' && content.toList.contains '}' then
    let l := content.toList
    let a := pyFindChar l '{'
    let b := l.length - 1 - pyFindChar l.reverse '}'
    ⟨(l.drop a).take (b + 1 - a)⟩
  else content

/-- The parse step of `qwen_vl_extract`, `app/qwen_service.py` lines 42-48:
scrape from the first `{` to the last `}`, `json.loads` the result, and on
any parse failure fall back to the empty dict `{}` without raising.
`content` is the stripped text of the model's first choice. -/
def qwen_vl_extract (content : String) : ExtractedFields :=
  match parseFieldsJson (scrapeBraces content) with
  | some d => d
  | none => emptyFields

/-- The parse step of `gemini_vl_extract`, `app/gemini_service.py` lines
113-131: the raw HTTP body is parsed whole by `r.json()` — there is no
brace scrape — and any request or parse failure is caught and returns the
empty dict `{}`.  (On success the source returns the parsed body as-is;
the pipeline reads it through `extracted.get(key)`, which is the field-set
view modelled by `parseFieldsJson`.) -/
def gemini_vl_extract (body : String) : ExtractedFields :=
  match parseFieldsJson body with
  | some d => d
  | none => emptyFields

/-- One parsed row of an uploaded CSV/JSON file (`row.get(...)` in
`app/main.py` lines 94-103); every cell may be missing. -/
structure KBRow where
  id : Option String := none
  title : Option String := none
  url : Option String := none
  text : Option String := none
deriving DecidableEq

/-- One surviving ingestion item (`items.append({...})`, `app/main.py`
lines 98-103) — also the shape of the `KBItemDB` row merged into Postgres. -/
structure KBItem where
  id : String
  title : Option String := none
  url : Option String := none
  text : String
deriving DecidableEq

/-- Vector metadata built at `app/main.py` line 118. -/
structure VecMeta where
  title : Option String := none
  url : Option String := none
  text : Option String := none
deriving DecidableEq

/-- One vector dict built at `app/main.py` lines 115-119. -/
structure VectorItem where
  id : String
  values : List ℚ
  metadata : VecMeta
deriving DecidableEq

/-- The JSON body returned by `/kb/upload-files` (`message` of the empty
case is dropped; only `ok` and `count` are modelled). -/
structure IngestResponse where
  ok : Bool
  count : Nat
deriving DecidableEq

/-- Everything observable about one run of `upload_kb_files`: the response
(`none` models an exception escaping the handler, i.e. an HTTP 500), the
`KBItemDB` rows durably merged into Postgres, and the `(id, text)` pairs
handed to the vector store's `add_texts`. -/
structure IngestOutcome where
  resp : Option IngestResponse
  dbItems : List KBItem
  storeAdds : List (String × String)
deriving DecidableEq

/-- The row loop of `upload_kb_files`, `app/main.py` lines 94-103: for each
row take `row.get("text") or ""`, skip the row when the stripped text is
empty, otherwise keep `{id: row.get("id") or uuid4().hex, title, url, text}`.
`fresh i` supplies the generated id for the row at position `i`. -/
def rowsToItems : List KBRow → Nat → (Nat → String) → List KBItem
  | [], _, _ => []
  | r :: rs, i, fresh =>
    let text := pyOr r.text ""
    if pyStrip text = "" then rowsToItems rs (i + 1) fresh
    else ⟨pyOr r.id (fresh i), r.title, r.url, text⟩ :: rowsToItems rs (i + 1) fresh

/-- The vector dicts built in the zip loop of `app/main.py` lines 113-119
(`zip(items, embs)` truncates to the shorter list). -/
def vectorsOfItems (items : List KBItem) (embs : List (List ℚ)) : List VectorItem :=
  (items.zip embs).map fun p => ⟨p.1.id, p.2, ⟨p.1.title, p.1.url, some p.1.text⟩⟩

/-- The payload filter of `upsert_vectors`, `app/opensearch_service.py`
lines 89-98: items whose metadata text is falsy are skipped; the others
contribute their id and text to the `add_texts` call. -/
def upsertPayload (vs : List VectorItem) : List (String × String) :=
  vs.filterMap fun v =>
    let text := pyOr v.metadata.text ""
    if text = "" then none else some (v.id, text)

/-- `upload_kb_files`, `app/main.py` lines 82-132.  `rows` are the parsed
rows of all uploaded CSV/JSON files in order, `fresh` the generated ids,
`embedR` the `embed_texts` call (an exception escapes the handler: there is
no try/except around it), `dbCommit` the `session.commit()` of line 123
(same), and `upsertR` the `upsert_vectors` call of line 127, whose failure
is caught and only logged. -/
def uploadKbFiles (rows : List KBRow) (fresh : Nat → String)
    (embedR : List String → Except Unit (List (List ℚ)))
    (dbCommit : Except Unit Unit)
    (upsertR : List (String × String) → Except Unit Unit) : IngestOutcome :=
  let items := rowsToItems rows 0 fresh
  if items = [] then ⟨some ⟨false, 0⟩, [], []⟩
  else
    match embedR (items.map KBItem.text) with
    | .error _ => ⟨none, [], []⟩
    | .ok embs =>
      let vectors := vectorsOfItems items embs
      let merged := (items.zip embs).map Prod.fst
      match dbCommit with
      | .error _ => ⟨none, [], []⟩
      | .ok _ =>
        match upsertR (upsertPayload vectors) with
        | .error _ => ⟨some ⟨true, items.length⟩, merged, []⟩
        | .ok _ => ⟨some ⟨true, items.length⟩, merged, upsertPayload vectors⟩

/-- The 600-character text of the snippet-truncation scenario. -/
def text600 : String := ⟨List.replicate 600 'k'⟩

/-- Its first 500 characters. -/
def text500 : String := ⟨List.replicate 500 'k'⟩

/-! ## Helper lemmas -/

theorem pyOr_none_empty (msg : Option String) : pyOr msg "" = msg.getD "" := by
  cases msg with
  | none => rfl
  | some s =>
    by_cases h : s = "" <;> simp [pyOr, h]

theorem append_ne_empty_left (s t : String) (h : s ≠ "") : s ++ t ≠ "" := by
  intro hc
  apply h
  have hd := congrArg String.data hc
  rw [String.data_append] at hd
  have hs : s.data = [] := (List.append_eq_nil.mp (by simpa using hd)).1
  cases s
  simp_all

theorem append_ne_empty_right (s t : String) (h : t ≠ "") : s ++ t ≠ "" := by
  intro hc
  apply h
  have hd := congrArg String.data hc
  rw [String.data_append] at hd
  have ht : t.data = [] := (List.append_eq_nil.mp (by simpa using hd)).2
  cases t
  simp_all

theorem chatFallback_ne_empty (msg : Option String) : chatFallback msg ≠ "" := by
  apply append_ne_empty_right
  decide

theorem answerOf_ne_empty (msg : Option String) (r : Except Unit String) :
    answerOf msg r ≠ "" := by
  cases r with
  | error u => exact chatFallback_ne_empty msg
  | ok a =>
    by_cases h : a = ""
    · simp [answerOf, h, chatFallback_ne_empty]
    · simp only [answerOf]
      split <;> simp_all [chatFallback_ne_empty]

theorem respondAndPersist_answer (body : SubmitScreenshotRequest)
    (extracted : ExtractedFields) (pair : List KBDoc × List String)
    (chatResult : Except Unit String) (tc mc : Except Unit Unit) (tid mid : String) :
    (respondAndPersist body extracted pair chatResult tc mc tid mid).resp.answer ≠ "" := by
  unfold respondAndPersist
  cases tc <;> cases mc <;> simp [degradedResp, answerOf_ne_empty]

theorem run_answer_ne_empty (body? : Except Unit SubmitScreenshotRequest)
    (extractR : Except Unit ExtractedFields)
    (embedR : List String → Except Unit (List (List ℚ)))
    (searchR : List ℚ → Nat → Except Unit SearchResult)
    (chatR : List ChatTurn → Except Unit String)
    (tc mc : Except Unit Unit) (tid mid : String) :
    (submitScreenshot body? extractR embedR searchR chatR tc mc tid mid).resp.answer ≠ "" := by
  cases body? with
  | error u =>
    show degradedOutcome.resp.answer ≠ ""
    decide
  | ok body =>
    cases hemb : embedR [buildQuery body.initial_message (extractOf extractR)] with
    | error u =>
      simp only [submitScreenshot, hemb]
      show degradedOutcome.resp.answer ≠ ""
      decide
    | ok embs =>
      cases embs with
      | nil =>
        simp only [submitScreenshot, hemb]
        show degradedOutcome.resp.answer ≠ ""
        decide
      | cons vec rest =>
        simp only [submitScreenshot, hemb]
        apply respondAndPersist_answer

theorem run_degraded_of_not_normal (body? : Except Unit SubmitScreenshotRequest)
    (extractR : Except Unit ExtractedFields)
    (embedR : List String → Except Unit (List (List ℚ)))
    (searchR : List ℚ → Nat → Except Unit SearchResult)
    (chatR : List ChatTurn → Except Unit String)
    (tc mc : Except Unit Unit) (tid mid : String)
    (h : (submitScreenshot body? extractR embedR searchR chatR tc mc tid mid).normal = false) :
    (submitScreenshot body? extractR embedR searchR chatR tc mc tid mid).resp = degradedResp := by
  cases body? with
  | error u => rfl
  | ok body =>
    cases hemb : embedR [buildQuery body.initial_message (extractOf extractR)] with
    | error u =>
      simp only [submitScreenshot, hemb]
      rfl
    | ok embs =>
      cases embs with
      | nil =>
        simp only [submitScreenshot, hemb]
        rfl
      | cons vec rest =>
        simp only [submitScreenshot, hemb] at h ⊢
        unfold respondAndPersist at h ⊢
        cases tc <;> cases mc <;> simp_all

theorem queryFold_eq_filterMap (pairs : List (String × Option String)) (acc : List String) :
    pairs.foldl
      (fun acc kv =>
        if pyTruthyStr kv.2 then acc ++ [kv.1 ++ ": " ++ kv.2.getD ""] else acc) acc
      = acc ++ pairs.filterMap (fun kv =>
          match kv.2 with
          | some v => if v = "" then none else some (kv.1 ++ ": " ++ v)
          | none => none) := by
  induction pairs generalizing acc with
  | nil => simp
  | cons kv rest ih =>
    obtain ⟨k, v⟩ := kv
    rw [List.foldl_cons, ih]
    cases v with
    | none => simp [pyTruthyStr]
    | some s =>
      by_cases h : s = ""
      · simp [pyTruthyStr, h]
      · simp [pyTruthyStr, h]

theorem buildQuery_eq_spec (msg : Option String) (e : ExtractedFields) :
    buildQuery msg e = buildQuerySpec msg e := by
  simp only [buildQuery, buildQuerySpec, queryFold_eq_filterMap, pyOr_none_empty,
    List.singleton_append]

theorem retrievalOf_ids (r : Except Unit SearchResult) :
    (retrievalOf r).2 = (retrievalOf r).1.map KBDoc.doc_id := by
  cases r with
  | error u => rfl
  | ok search =>
    simp only [retrievalOf, List.map_map]
    rfl

theorem pyStrip_of_empty : pyStrip "" = "" := rfl

theorem rowsToItems_text_ne (rows : List KBRow) (i : Nat) (fresh : Nat → String) :
    ∀ it ∈ rowsToItems rows i fresh, it.text ≠ "" := by
  induction rows generalizing i with
  | nil => simp [rowsToItems]
  | cons r rs ih =>
    intro it hit
    rw [rowsToItems] at hit
    by_cases h : pyStrip (pyOr r.text "") = ""
    · rw [if_pos h] at hit
      exact ih (i + 1) it hit
    · rw [if_neg h] at hit
      rcases List.mem_cons.mp hit with heq | hmem
      · subst heq
        intro hc
        have hc2 : pyOr r.text "" = "" := hc
        apply h
        rw [hc2]
        exact pyStrip_of_empty
      · exact ih (i + 1) it hmem

theorem rowsToItems_length (rows : List KBRow) (i : Nat) (fresh : Nat → String) :
    (rowsToItems rows i fresh).length =
      (rows.filter fun r => pyStrip (pyOr r.text "") ≠ "").length := by
  induction rows generalizing i with
  | nil => rfl
  | cons r rs ih =>
    rw [rowsToItems, List.filter]
    by_cases h : pyStrip (pyOr r.text "") = "" <;> simp [h, ih]

theorem upsertPayload_vectors (items : List KBItem) (embs : List (List ℚ))
    (h : ∀ it ∈ items, it.text ≠ "") :
    upsertPayload (vectorsOfItems items embs) =
      (items.zip embs).map fun p => (p.1.id, p.1.text) := by
  induction items generalizing embs with
  | nil => rfl
  | cons it its ih =>
    cases embs with
    | nil => rfl
    | cons e es =>
      have hit : it.text ≠ "" := h it (List.mem_cons_self it its)
      have hpyOr : pyOr (some it.text) "" = it.text := by simp [pyOr, hit]
      have htail := ih es (fun x hx => h x (List.mem_cons_of_mem it hx))
      simp only [upsertPayload, vectorsOfItems] at htail ⊢
      simp only [List.zip_cons_cons, List.map_cons, List.filterMap_cons, hpyOr, if_neg hit]
      rw [htail]

/-! ## Claim theorems -/

/-- C1 (amended): if the Knowledge Store similarity query raises, the
evidence is reset to the empty sequence and the pipeline proceeds through
answer generation and persistence, responding with `kb = []` and a
non-empty answer; but if the query-embedding call raises, the request
short-circuits to the catch-all handler's degraded outcome — answer
generation and persistence are skipped, no ticket is written — while still
responding with `kb = []` and a non-empty answer. -/
theorem claim_C1 :
    (∀ (body : SubmitScreenshotRequest) (extractR : Except Unit ExtractedFields)
        (vec : List ℚ) (rest : List (List ℚ))
        (chatR : List ChatTurn → Except Unit String)
        (tc mc : Except Unit Unit) (tid mid : String),
      (submitScreenshot (.ok body) extractR (fun _ => .ok (vec :: rest))
          (fun _ _ => .error ()) chatR tc mc tid mid).resp.kb = [] ∧
      (submitScreenshot (.ok body) extractR (fun _ => .ok (vec :: rest))
          (fun _ _ => .error ()) chatR tc mc tid mid).resp.answer ≠ "" ∧
      (submitScreenshot (.ok body) extractR (fun _ => .ok (vec :: rest))
          (fun _ _ => .error ()) chatR tc mc tid mid).chatCalled = true) ∧
    (∀ (body : SubmitScreenshotRequest) (extractR : Except Unit ExtractedFields)
        (searchR : List ℚ → Nat → Except Unit SearchResult)
        (chatR : List ChatTurn → Except Unit String)
        (tc mc : Except Unit Unit) (tid mid : String),
      submitScreenshot (.ok body) extractR (fun _ => .error ()) searchR chatR tc mc tid mid
        = degradedOutcome) := by
  constructor
  · intro body extractR vec rest chatR tc mc tid mid
    refine ⟨?_, ?_, ?_⟩
    · cases tc <;> cases mc <;>
        simp [submitScreenshot, retrievalOf, respondAndPersist, degradedResp]
    · apply run_answer_ne_empty
    · cases tc <;> cases mc <;>
        simp [submitScreenshot, retrievalOf, respondAndPersist]
  · intro body extractR searchR chatR tc mc tid mid
    rfl

/-- C1 counterexample: a request whose embedding call raises while every
later dependency (store, chat, both commits) would succeed does NOT
proceed through the remaining stages — the chat stage is never reached and
no ticket is persisted — contradicting the claim that on an embedding
failure the pipeline sets evidence to `[]` and proceeds; only the
response-shape part of the claim (kb `[]`, non-empty answer) survives. -/
theorem claim_C1_cex :
    submitScreenshot (.ok ⟨"u1", "http://x/y.png", some "hi", 4⟩) (.ok emptyFields)
        (fun _ => .error ()) (fun _ _ => .ok ⟨some []⟩) (fun _ => .ok "All good")
        (.ok ()) (.ok ()) "t1" "m1" = degradedOutcome ∧
    degradedOutcome.ticket = none ∧ degradedOutcome.chatCalled = false ∧
    degradedOutcome.resp.kb = [] ∧ degradedOutcome.resp.answer ≠ "" := by
  exact ⟨rfl, rfl, rfl, rfl, by decide⟩

/-- C2: the endpoint never hands the caller an error payload — every run
wraps its outcome in a `.normal` response — and whenever the catch-all
handler produced the response (any unrecoverable internal error), that
response is exactly the degraded one: all-null extracted fields, empty kb,
and the fixed greeting fallback string. -/
theorem claim_C2 (body? : Except Unit SubmitScreenshotRequest)
    (extractR : Except Unit ExtractedFields)
    (embedR : List String → Except Unit (List (List ℚ)))
    (searchR : List ℚ → Nat → Except Unit SearchResult)
    (chatR : List ChatTurn → Except Unit String)
    (tc mc : Except Unit Unit) (tid mid : String) :
    submitScreenshotEndpoint body? extractR embedR searchR chatR tc mc tid mid
      = .normal (submitScreenshot body? extractR embedR searchR chatR tc mc tid mid).resp ∧
    ((submitScreenshot body? extractR embedR searchR chatR tc mc tid mid).normal = false →
      (submitScreenshot body? extractR embedR searchR chatR tc mc tid mid).resp =
        { extracted := emptyFields, kb := [],
          answer := "Hello! How can I help you today?" }) :=
  ⟨rfl, fun h =>
    (run_degraded_of_not_normal body? extractR embedR searchR chatR tc mc tid mid h).trans rfl⟩

/-- C2 witness: a run whose request body fails validation produces the
degraded response. -/
theorem claim_C2_witness :
    (submitScreenshot (.error ()) (.ok emptyFields) (fun _ => .ok [[1]])
        (fun _ _ => .ok ⟨some []⟩) (fun _ => .ok "fine") (.ok ()) (.ok ()) "t" "m").resp =
      { extracted := emptyFields, kb := [],
        answer := "Hello! How can I help you today?" } :=
  (claim_C2 (.error ()) (.ok emptyFields) (fun _ => .ok [[1]])
    (fun _ _ => .ok ⟨some []⟩) (fun _ => .ok "fine") (.ok ()) (.ok ()) "t" "m").2 (by decide)

/-- C3: query building is deterministic and follows the fixed algorithm of
§4.4 (start with the initial message, append `"<key>: <value>"` for the
four keys in fixed order when the value is present and non-empty, join the
non-empty parts with newline, fall back to `"customer support"`); on the
concrete example it produces exactly the specified string, and with no
message and no fields it returns `"customer support"`. -/
theorem claim_C3 :
    (∀ (msg : Option String) (e : ExtractedFields), buildQuery msg e = buildQuerySpec msg e) ∧
    buildQuery (some "Where is my order?")
      { order_id := some "A1", product_name := some "Widget", issue_type := some "missing" } =
      "Where is my order?\norder_id: A1\nproduct_name: Widget\nissue_type: missing" ∧
    buildQuery none emptyFields = "customer support" :=
  ⟨buildQuery_eq_spec, by decide, by decide⟩

/-- C4 counterexample: the Gemini vision extractor parses the raw body
whole, without the first-`{`-to-last-`}` scrape: on the output
`x{"order_id": "A1"}` (brace written `\x7b`/`\x7d`) the whole-body parse
fails and `gemini_vl_extract` returns the empty field set, while the
claimed scrape-then-parse behaviour succeeds and yields `order_id = "A1"`. -/
theorem claim_C4_cex :
    gemini_vl_extract "x\x7b\"order_id\": \"A1\"\x7d" = emptyFields ∧
    parseFieldsJson (scrapeBraces "x\x7b\"order_id\": \"A1\"\x7d") =
      some { order_id := some "A1" } ∧
    gemini_vl_extract "x\x7b\"order_id\": \"A1\"\x7d" ≠
      (parseFieldsJson (scrapeBraces "x\x7b\"order_id\": \"A1\"\x7d")).getD emptyFields := by
  exact ⟨by decide, by decide, by decide⟩

/-- C4 (amended): the Qwen extractor parses the substring from the first
`{` to the last `}` of the model output as JSON and returns the empty
field set on any parse failure or empty input, without raising; the Gemini
vision extractor parses its response body whole (no brace scrape) and
likewise returns the empty field set on any parse failure, without
raising. -/
theorem claim_C4 :
    (∀ content : String, parseFieldsJson (scrapeBraces content) = none →
      qwen_vl_extract content = emptyFields) ∧
    (∀ (content : String) (d : ExtractedFields),
      parseFieldsJson (scrapeBraces content) = some d → qwen_vl_extract content = d) ∧
    (∀ body : String, parseFieldsJson body = none → gemini_vl_extract body = emptyFields) ∧
    qwen_vl_extract "" = emptyFields ∧
    qwen_vl_extract "noise \x7b\"order_id\": \"A1\"\x7d tail" =
      { order_id := some "A1" } := by
  refine ⟨?_, ?_, ?_, by decide, by decide⟩
  · intro content h
    simp [qwen_vl_extract, h]
  · intro content d h
    simp [qwen_vl_extract, h]
  · intro body h
    simp [gemini_vl_extract, h]

/-- C4 witness: concrete unparsable inputs on which both extractors
return the empty field set. -/
theorem claim_C4_witness :
    parseFieldsJson (scrapeBraces "no json at all") = none ∧
    qwen_vl_extract "no json at all" = emptyFields ∧
    parseFieldsJson "x\x7b\x7d" = none ∧
    gemini_vl_extract "x\x7b\x7d" = emptyFields :=
  ⟨by decide, claim_C4.1 "no json at all" (by decide), by decide,
   claim_C4.2.2.1 "x\x7b\x7d" (by decide)⟩

/-- C5 counterexample: two requests that differ only in their initial
message, both with a raised answer-generation call, receive different
fallback answers — the fallback is not one fixed string independent of the
request. -/
theorem claim_C5_cex :
    (submitScreenshot (.ok ⟨"u1", "i", some "AAA", 4⟩) (.ok emptyFields) (fun _ => .ok [[1]])
        (fun _ _ => .ok ⟨some []⟩) (fun _ => .error ()) (.ok ()) (.ok ()) "t" "m").resp.answer
      = "AAA Hello! How are you today?" ∧
    (submitScreenshot (.ok ⟨"u2", "i", some "BBB", 4⟩) (.ok emptyFields) (fun _ => .ok [[1]])
        (fun _ _ => .ok ⟨some []⟩) (fun _ => .error ()) (.ok ()) (.ok ()) "t" "m").resp.answer
      = "BBB Hello! How are you today?" ∧
    (submitScreenshot (.ok ⟨"u1", "i", some "AAA", 4⟩) (.ok emptyFields) (fun _ => .ok [[1]])
        (fun _ _ => .ok ⟨some []⟩) (fun _ => .error ()) (.ok ()) (.ok ()) "t" "m").resp.answer
      ≠
    (submitScreenshot (.ok ⟨"u2", "i", some "BBB", 4⟩) (.ok emptyFields) (fun _ => .ok [[1]])
        (fun _ _ => .ok ⟨some []⟩) (fun _ => .error ()) (.ok ()) (.ok ()) "t" "m").resp.answer := by
  exact ⟨by decide, by decide, by decide⟩

/-- C5 (amended): when the answer-generation call raises, or returns an
empty answer, the pipeline substitutes the request-dependent fallback
`"<initial_message or Hello!> Hello! How are you today?"`; when the chat
client's HTTP call fails, `gemini_chat` converts it to the sentinel
`"Failed to connect to Gemini service."`, which passes the degeneracy
check and is returned as the answer unchanged; in every run the user
receives a non-empty answer and no failure propagates. -/
theorem claim_C5 :
    (∀ (body : SubmitScreenshotRequest) (extractR : Except Unit ExtractedFields)
        (vec : List ℚ) (rest : List (List ℚ))
        (searchR : List ℚ → Nat → Except Unit SearchResult) (tid mid : String),
      (submitScreenshot (.ok body) extractR (fun _ => .ok (vec :: rest)) searchR
          (fun _ => .error ()) (.ok ()) (.ok ()) tid mid).resp.answer =
        chatFallback body.initial_message) ∧
    (∀ (body : SubmitScreenshotRequest) (extractR : Except Unit ExtractedFields)
        (vec : List ℚ) (rest : List (List ℚ))
        (searchR : List ℚ → Nat → Except Unit SearchResult) (tid mid : String),
      (submitScreenshot (.ok body) extractR (fun _ => .ok (vec :: rest)) searchR
          (fun _ => .ok "") (.ok ()) (.ok ()) tid mid).resp.answer =
        chatFallback body.initial_message) ∧
    (∀ msg : Option String,
      chatFallback msg = pyOr msg "Hello!" ++ " Hello! How are you today?") ∧
    (∀ (body : SubmitScreenshotRequest) (extractR : Except Unit ExtractedFields)
        (vec : List ℚ) (rest : List (List ℚ))
        (searchR : List ℚ → Nat → Except Unit SearchResult) (tid mid : String),
      (submitScreenshot (.ok body) extractR (fun _ => .ok (vec :: rest)) searchR
          (fun msgs => .ok (gemini_chat msgs (fun _ => .error ())))
          (.ok ()) (.ok ()) tid mid).resp.answer =
        "Failed to connect to Gemini service.") ∧
    (∀ (body? : Except Unit SubmitScreenshotRequest) (extractR : Except Unit ExtractedFields)
        (embedR : List String → Except Unit (List (List ℚ)))
        (searchR : List ℚ → Nat → Except Unit SearchResult)
        (chatR : List ChatTurn → Except Unit String)
        (tc mc : Except Unit Unit) (tid mid : String),
      (submitScreenshot body? extractR embedR searchR chatR tc mc tid mid).resp.answer ≠ "") := by
  refine ⟨fun body _ _ _ _ _ _ => rfl, fun body _ _ _ _ _ _ => rfl, fun msg => rfl,
    fun body _ _ _ _ _ _ => rfl, run_answer_ne_empty⟩

/-- C7: for every retrieved match, the response snippet is the plain
character-level truncation of the stored text to its first 500 characters;
in particular a 600-character stored text yields exactly its first 500
characters. -/
theorem claim_C7 :
    (∀ m : SearchMatch,
      (kbDocOfMatch m).snippet.toList =
        (pyOr (m.metadata.getD {}).text "").toList.take 500) ∧
    (kbDocOfMatch ⟨"d600", none, some ⟨none, none, some text600⟩⟩).snippet = text500 ∧
    text600.length = 600 ∧ text500.length = 500 := by
  refine ⟨fun m => rfl, ?_, ?_, ?_⟩
  · simp [kbDocOfMatch, pyTake, pyOr, text600, text500, List.take_replicate]
  · simp [text600, String.length]
  · simp [text500, String.length]

/-- C8 counterexample: a request whose body fails schema validation is
absorbed by the catch-all handler into the plain degraded response — the
boundary returns a normal payload, not a client-error status. -/
theorem claim_C8_cex :
    submitScreenshotEndpoint (.error ()) (.ok emptyFields) (fun _ => .ok [[1]])
        (fun _ _ => .ok ⟨some []⟩) (fun _ => .ok "All good") (.ok ()) (.ok ()) "t" "m"
      = .normal degradedResp ∧
    (submitScreenshotEndpoint (.error ()) (.ok emptyFields) (fun _ => .ok [[1]])
        (fun _ _ => .ok ⟨some []⟩) (fun _ => .ok "All good") (.ok ()) (.ok ())
        "t" "m").isClientError
      = false :=
  ⟨rfl, rfl⟩

/-- C8 (amended): a malformed request body failing schema validation is
not fatal — the `/submit-screenshot` handler parses and validates inside
its catch-all `try`, so every such request yields the normal degraded
response rather than a structured 4xx error. -/
theorem claim_C8 (extractR : Except Unit ExtractedFields)
    (embedR : List String → Except Unit (List (List ℚ)))
    (searchR : List ℚ → Nat → Except Unit SearchResult)
    (chatR : List ChatTurn → Except Unit String)
    (tc mc : Except Unit Unit) (tid mid : String) :
    submitScreenshotEndpoint (.error ()) extractR embedR searchR chatR tc mc tid mid
      = .normal degradedResp :=
  rfl

/-- C9 (amended): for an ingestion batch whose embedding call succeeds
with one vector per surviving row and whose relational commit succeeds:
rows with empty (or whitespace-only) text are skipped, every surviving row
is mirrored into the relational metadata table, the Knowledge Store upsert
is attempted with every surviving row's id and text but its failure is
swallowed (nothing reaches the store, the response is unchanged), and the
response reports `ok` with `count` equal to the number of surviving rows
(`ok = false, count = 0` when no row survives). -/
theorem claim_C9 (rows : List KBRow) (fresh : Nat → String) (embs : List (List ℚ))
    (upsertR : List (String × String) → Except Unit Unit)
    (hlen : embs.length = (rowsToItems rows 0 fresh).length) :
    (uploadKbFiles rows fresh (fun _ => .ok embs) (.ok ()) upsertR).resp =
      some ⟨decide (rowsToItems rows 0 fresh ≠ []), (rowsToItems rows 0 fresh).length⟩ ∧
    (rowsToItems rows 0 fresh).length =
      (rows.filter fun r => pyStrip (pyOr r.text "") ≠ "").length ∧
    (uploadKbFiles rows fresh (fun _ => .ok embs) (.ok ()) upsertR).dbItems =
      rowsToItems rows 0 fresh ∧
    (uploadKbFiles rows fresh (fun _ => .ok embs) (.ok ()) upsertR).storeAdds =
      (match upsertR ((rowsToItems rows 0 fresh).map fun it => (it.id, it.text)) with
       | .ok _ => (rowsToItems rows 0 fresh).map fun it => (it.id, it.text)
       | .error _ => []) := by
  have hne := rowsToItems_text_ne rows 0 fresh
  have hpay : upsertPayload (vectorsOfItems (rowsToItems rows 0 fresh) embs) =
      (rowsToItems rows 0 fresh).map fun it => (it.id, it.text) := by
    rw [upsertPayload_vectors _ _ hne]
    have hcomp : (fun p : KBItem × List ℚ => (p.1.id, p.1.text)) =
        (fun it : KBItem => (it.id, it.text)) ∘ Prod.fst := rfl
    rw [hcomp, ← List.map_map, List.map_fst_zip _ _ (le_of_eq hlen.symm)]
  have hmerged : ((rowsToItems rows 0 fresh).zip embs).map Prod.fst =
      rowsToItems rows 0 fresh :=
    List.map_fst_zip _ _ (le_of_eq hlen.symm)
  by_cases hitems : rowsToItems rows 0 fresh = []
  · have hresp : uploadKbFiles rows fresh (fun _ => .ok embs) (.ok ()) upsertR =
        ⟨some ⟨false, 0⟩, [], []⟩ := by
      simp [uploadKbFiles, hitems]
    refine ⟨?_, rowsToItems_length rows 0 fresh, ?_, ?_⟩
    · rw [hresp]
      simp [hitems]
    · rw [hresp]
      simp [hitems]
    · rw [hresp, hitems]
      simp only [List.map_nil]
      cases upsertR [] <;> rfl
  · refine ⟨?_, rowsToItems_length rows 0 fresh, ?_, ?_⟩ <;>
      simp only [uploadKbFiles, if_neg hitems, hpay, hmerged] <;>
      cases hup : upsertR ((rowsToItems rows 0 fresh).map fun it => (it.id, it.text)) <;>
      simp [hup, hitems]

/-- C9 counterexample: a one-row batch whose vector-store upsert raises
still answers `{ok: true, count: 1}` with the row mirrored to the
relational table but nothing reaching the Knowledge Store — contradicting
the claim that every surviving row is upserted into the Knowledge Store
whenever the response reports `ok` and its count. -/
theorem claim_C9_cex :
    uploadKbFiles [⟨some "d1", none, none, some "hello"⟩] (fun _ => "gen")
      (fun _ => .ok [[1]]) (.ok ()) (fun _ => .error ()) =
      ⟨some ⟨true, 1⟩, [⟨"d1", none, none, "hello"⟩], []⟩ := by decide

/-- C9 witness: a concrete one-row batch on which the amended claim's
hypotheses hold. -/
theorem claim_C9_witness :
    (uploadKbFiles [⟨some "d1", none, none, some "hello"⟩] (fun _ => "gen")
        (fun _ => .ok [[1]]) (.ok ()) (fun _ => .ok ())).dbItems =
      rowsToItems [⟨some "d1", none, none, some "hello"⟩] 0 (fun _ => "gen") :=
  (claim_C9 [⟨some "d1", none, none, some "hello"⟩] (fun _ => "gen") [[1]]
    (fun _ => .ok ()) (by decide)).2.2.1

/-- C10: every run that completes the normal (non-degraded) path persists
a ticket whose `kb_doc_ids` equal, element for element and in order, the
`doc_id`s of the response's kb entries, and whose `answer` equals the
response's answer. -/
theorem claim_C10 (body? : Except Unit SubmitScreenshotRequest)
    (extractR : Except Unit ExtractedFields)
    (embedR : List String → Except Unit (List (List ℚ)))
    (searchR : List ℚ → Nat → Except Unit SearchResult)
    (chatR : List ChatTurn → Except Unit String)
    (tc mc : Except Unit Unit) (tid mid : String)
    (h : (submitScreenshot body? extractR embedR searchR chatR tc mc tid mid).normal = true) :
    ((submitScreenshot body? extractR embedR searchR chatR tc mc tid mid).ticket.map
        TicketDB.kb_doc_ids)
      = some ((submitScreenshot body? extractR embedR searchR chatR tc mc tid
          mid).resp.kb.map KBDoc.doc_id) ∧
    ((submitScreenshot body? extractR embedR searchR chatR tc mc tid mid).ticket.map
        TicketDB.answer)
      = some (submitScreenshot body? extractR embedR searchR chatR tc mc tid mid).resp.answer := by
  revert h
  cases body? with
  | error u =>
    intro h
    exact absurd h Bool.false_ne_true
  | ok body =>
    cases hemb : embedR [buildQuery body.initial_message (extractOf extractR)] with
    | error u =>
      simp only [submitScreenshot, hemb]
      intro h
      exact absurd h Bool.false_ne_true
    | ok embs =>
      cases embs with
      | nil =>
        simp only [submitScreenshot, hemb]
        intro h
        exact absurd h Bool.false_ne_true
      | cons vec rest =>
        simp only [submitScreenshot, hemb]
        unfold respondAndPersist
        cases tc <;> cases mc <;> intro h
        · exact absurd h Bool.false_ne_true
        · exact absurd h Bool.false_ne_true
        · exact absurd h Bool.false_ne_true
        · exact ⟨congrArg some (retrievalOf_ids _), rfl⟩

/-- C10 witness: a concrete normal run whose persisted ticket mirrors the
response's kb doc ids. -/
theorem claim_C10_witness :
    ((submitScreenshot (.ok ⟨"u1", "i", some "hi", 4⟩) (.ok emptyFields) (fun _ => .ok [[1]])
        (fun _ _ => .ok ⟨some [⟨"d1", some 1, some ⟨some "T", none, some "txt"⟩⟩]⟩)
        (fun _ => .ok "ans") (.ok ()) (.ok ()) "t" "m").ticket.map TicketDB.kb_doc_ids)
      = some ((submitScreenshot (.ok ⟨"u1", "i", some "hi", 4⟩) (.ok emptyFields)
          (fun _ => .ok [[1]])
          (fun _ _ => .ok ⟨some [⟨"d1", some 1, some ⟨some "T", none, some "txt"⟩⟩]⟩)
          (fun _ => .ok "ans") (.ok ()) (.ok ()) "t" "m").resp.kb.map KBDoc.doc_id) :=
  (claim_C10 (.ok ⟨"u1", "i", some "hi", 4⟩) (.ok emptyFields) (fun _ => .ok [[1]])
    (fun _ _ => .ok ⟨some [⟨"d1", some 1, some ⟨some "T", none, some "txt"⟩⟩]⟩)
    (fun _ => .ok "ans") (.ok ()) (.ok ()) "t" "m" (by decide)).1

end App
